import Mathlib

/-!
Verification development for the Chart2CSV core (`src/chart2csv/core/`).

Numeric modelling conventions used throughout this file:
* Python `float` arithmetic is modelled exactly over `ℚ` (or `ℝ` where a
  transcendental operation such as `10 ** x` is involved); float literals
  such as `0.3` become the exact rationals `3/10`.
* External library calls (OpenCV, numpy's `polyfit`/`log10`, the OCR and
  vision services, `hashlib.md5`, the JSON parser) are modelled as explicit
  oracle parameters: the surrounding control flow is translated faithfully
  from the source while the external call's output is universally
  quantified.
* Python exceptions are modelled with `Except`: each `raise` site becomes a
  distinct error constructor; code that cannot raise is a total function.
-/

namespace Chart2CSV

/-! ## `chart2csv/core/types.py` (referenced from `transform.py`)

The `Scale` enum is imported by `transform.py` from `chart2csv.core.types`;
that module is not present under `src/`, but the enum is fully determined by
its usage (`Scale.LINEAR`, `Scale.LOG`, `scale.value ∈ {"linear", "log"}`). -/

inductive Scale where
  | linear
  | log
deriving DecidableEq

def Scale.value : Scale → String
  | .linear => "linear"
  | .log => "log"

/-! ## `chart2csv/core/transform.py` -/

/-- One axis entry of the transform dict: `{"a": float, "b": float, "scale": str}`. -/
structure AxisTransform where
  a : ℚ
  b : ℚ
  scale : String
deriving DecidableEq

/-- The transform dict with its two axis entries `"x"` and `"y"`. -/
structure TransformDict where
  x : AxisTransform
  y : AxisTransform
deriving DecidableEq

/-- Manual-calibration dict: per axis an optional list of `(pixel, value)`
pairs; `none` models an absent key (`calibration_points.get(axis, [])`,
`axis not in calibration`). -/
structure CalibDict where
  x : Option (List (ℚ × ℚ))
  y : Option (List (ℚ × ℚ))

/-- OCR-ticks dict: per axis an optional list of `(pixel, value)` pairs
(the `"text"` field of a tick is never read by `transform.py`). -/
structure TicksDict where
  x : Option (List (ℚ × ℚ))
  y : Option (List (ℚ × ℚ))

/-- Python truthiness of the `calibration_points` dict (restricted to its
two meaningful keys): a dict is truthy iff it is nonempty. -/
def CalibDict.truthy (c : CalibDict) : Bool :=
  c.x.isSome || c.y.isSome

/-- Python truthiness of the `ticks` dict. -/
def TicksDict.truthy (t : TicksDict) : Bool :=
  t.x.isSome || t.y.isSome

/-- The `raise` sites reachable from `build_transform`:
`config axis` models `ValueError("Need at least 2 calibration points for
{axis}-axis")` (the spec's `ConfigurationError`), `zeroDiv` models the
unguarded `ZeroDivisionError` of `(val2 - val1) / (px2 - px1)`, and
`needInput` models `ValueError("Need either ticks or calibration_points")`. -/
inductive BuildError where
  | config (axis : String)
  | zeroDiv
  | needInput
deriving DecidableEq

/-- Model of `np.clip(values, 1e-10, None)` on one element: clamp below at `1e-10`. -/
def clipLow (v : ℚ) : ℚ := max v (1 / 10 ^ 10)

/-- Arithmetic mean as computed by `np.mean` (0 on an empty list, matching
numpy's `nan` never arising here because every call site has `n ≥ 2`). -/
def npMean (l : List ℚ) : ℚ := l.sum / l.length

/-- Model of `_build_from_ticks` for one axis, from the loop body at
`transform.py:50-85`.  `polyfit` is the oracle for `np.polyfit(pixels,
target_values, 1)` and `log10` the oracle for float `np.log10`.
Returns the axis transform, the fit error contribution, and whether the
axis was processed (`len(points) >= 2`). -/
def buildTicksAxis (polyfit : List ℚ → List ℚ → ℚ × ℚ) (log10 : ℚ → ℚ)
    (scale : Scale) (points : List (ℚ × ℚ)) : AxisTransform × ℚ × Bool :=
  if points.length < 2 then
    (⟨1, 0, "linear"⟩, 0, false)
  else
    let pixels := points.map (·.1)
    let values := points.map (·.2)
    let target := if scale = Scale.log then (values.map clipLow).map log10 else values
    let ab := polyfit pixels target
    let preds := pixels.map fun p => ab.1 * p + ab.2
    let err0 := npMean (((preds.zip target).map fun pt => |pt.1 - pt.2|))
    let err := if npMean (target.map fun t => |t|) > 0 then
        err0 / npMean (target.map fun t => |t|) else err0
    (⟨ab.1, ab.2, scale.value⟩, err, true)

/-- Model of `_build_from_ticks` (`transform.py:40-89`). -/
def _build_from_ticks (polyfit : List ℚ → List ℚ → ℚ × ℚ) (log10 : ℚ → ℚ)
    (ticks : TicksDict) (x_scale y_scale : Scale) : TransformDict × ℚ :=
  let rx := buildTicksAxis polyfit log10 x_scale (ticks.x.getD [])
  let ry := buildTicksAxis polyfit log10 y_scale (ticks.y.getD [])
  let total := rx.2.1 + ry.2.1
  let axes := (if rx.2.2 then 1 else 0) + (if ry.2.2 then 1 else 0)
  (⟨rx.1, ry.1⟩, if axes > 0 then total / axes else 0)

/-- Model of `_build_from_calibration` for one axis (`transform.py:106-131`).
`log10pos` is the oracle for float `np.log10` on positive arguments;
`np.log10(val) if val > 0 else 0` is translated verbatim.  The division by
`px2 - px1` is unguarded in the source: a zero denominator raises
`ZeroDivisionError`, modelled as the `zeroDiv` error. -/
def buildCalibAxis (log10pos : ℚ → ℚ) (axis : String) (scale : Scale)
    (points : List (ℚ × ℚ)) : Except BuildError AxisTransform :=
  if points.length < 2 then
    .error (.config axis)
  else
    match points with
    | (px1, val1) :: (px2, val2) :: _ =>
      if px2 - px1 = 0 then .error .zeroDiv
      else if scale = Scale.linear then
        let a := (val2 - val1) / (px2 - px1)
        .ok ⟨a, val1 - a * px1, scale.value⟩
      else
        let lv1 := if val1 > 0 then log10pos val1 else 0
        let lv2 := if val2 > 0 then log10pos val2 else 0
        let a := (lv2 - lv1) / (px2 - px1)
        .ok ⟨a, lv1 - a * px1, scale.value⟩
    | _ => .error (.config axis)

/-- Model of `_build_from_calibration` (`transform.py:92-136`): the x axis is
processed before the y axis (an exception on x preempts y), and a fully
successful run returns fit error 0. -/
def _build_from_calibration (log10pos : ℚ → ℚ) (calibration_points : CalibDict)
    (x_scale y_scale : Scale) : Except BuildError (TransformDict × ℚ) :=
  match buildCalibAxis log10pos "x" x_scale (calibration_points.x.getD []) with
  | .error e => .error e
  | .ok tx =>
    match buildCalibAxis log10pos "y" y_scale (calibration_points.y.getD []) with
    | .error e => .error e
    | .ok ty => .ok (⟨tx, ty⟩, 0)

/-- Model of `build_transform` (`transform.py:10-37`): dispatch on the truthiness of
`calibration_points`, then of `ticks`. -/
def build_transform (polyfit : List ℚ → List ℚ → ℚ × ℚ) (log10 : ℚ → ℚ)
    (ticks : Option TicksDict) (calibration_points : Option CalibDict)
    (x_scale y_scale : Scale) : Except BuildError (TransformDict × ℚ) :=
  match calibration_points with
  | some c =>
    if c.truthy then _build_from_calibration log10 c x_scale y_scale
    else match ticks with
      | some t =>
        if t.truthy then .ok (_build_from_ticks polyfit log10 t x_scale y_scale)
        else .error .needInput
      | none => .error .needInput
  | none =>
    match ticks with
    | some t =>
      if t.truthy then .ok (_build_from_ticks polyfit log10 t x_scale y_scale)
      else .error .needInput
    | none => .error .needInput

/-- Model of `apply_transform` on one coordinate (`transform.py:155-167`): the value
is `a * pixel + b` when the stored scale string is `"linear"`, and
`10 ** (a * pixel + b)` (real exponentiation) otherwise. -/
noncomputable def applyAxis (t : AxisTransform) (pixel : ℚ) : ℝ :=
  if t.scale = "linear" then ((t.a * pixel + t.b : ℚ) : ℝ)
  else (10 : ℝ) ^ ((t.a * pixel + t.b : ℚ) : ℝ)

/-- Model of `apply_transform` (`transform.py:139-169`) on an N×2 array of
`(x_pixel, y_pixel)` rows. -/
noncomputable def apply_transform (t : TransformDict) (pixel_coords : List (ℚ × ℚ)) :
    List (ℝ × ℝ) :=
  pixel_coords.map fun pc => (applyAxis t.x pc.1, applyAxis t.y pc.2)

/-! ## `chart2csv/core/autocrop.py` -/

/-- A crop rectangle `(x1, y1, x2, y2)` in pixel space. -/
structure CropBox where
  x1 : ℤ
  y1 : ℤ
  x2 : ℤ
  y2 : ℤ
deriving DecidableEq

/-- The spec's CropBox invariant: `0 ≤ x1 < x2 ≤ width` and
`0 ≤ y1 < y2 ≤ height`. -/
def CropBox.valid (w h : ℕ) (b : CropBox) : Prop :=
  0 ≤ b.x1 ∧ b.x1 < b.x2 ∧ b.x2 ≤ (w : ℤ) ∧ 0 ≤ b.y1 ∧ b.y1 < b.y2 ∧ b.y2 ≤ (h : ℤ)

instance (w h : ℕ) (b : CropBox) : Decidable (b.valid w h) := by
  unfold CropBox.valid; infer_instance

/-- One line segment `(x1, y1, x2, y2)` as returned by `cv2.HoughLinesP`. -/
structure Seg where
  x1 : ℤ
  y1 : ℤ
  x2 : ℤ
  y2 : ℤ
deriving DecidableEq

/-- Midpoint row of a (near-horizontal) segment: `(y1 + y2) // 2`
(Python floor division). -/
def Seg.hMid (s : Seg) : ℤ := (s.y1 + s.y2).fdiv 2

/-- Midpoint column of a (near-vertical) segment: `(x1 + x2) // 2`. -/
def Seg.vMid (s : Seg) : ℤ := (s.x1 + s.x2).fdiv 2

/-- Model of `autocrop.py:67`: `angle < 10 or angle > 170`. -/
def isHorizontalAngle (angle : ℚ) : Bool := angle < 10 || angle > 170

/-- Model of `autocrop.py:69`: `80 < angle < 100`. -/
def isVerticalAngle (angle : ℚ) : Bool := 80 < angle && angle < 100

/-- Model of `_fallback_crop` (`autocrop.py:173-179`): fixed 10% margin crop;
`int(w * 0.1)` is exactly `w / 10` in integer arithmetic. -/
def _fallback_crop (w h : ℕ) : CropBox :=
  ⟨(w / 10 : ℕ), (h / 10 : ℕ), (w : ℤ) - (w / 10 : ℕ), (h : ℤ) - (h / 10 : ℕ)⟩

/-- Model of `detect_plot_area` (`autocrop.py:13-101`).  `angleOf` is the oracle for
`np.abs(np.arctan2(y2 - y1, x2 - x1) * 180 / np.pi)` on a segment and
`lines` the oracle for `cv2.HoughLinesP` (`none` = no lines).  The
`if/elif` classification is translated as two disjoint filters (no angle
satisfies both predicates). -/
def detect_plot_area (angleOf : Seg → ℚ) (w h : ℕ) (margin : ℤ)
    (lines : Option (List Seg)) : CropBox × ℚ :=
  match lines with
  | none => (_fallback_crop w h, 3/10)
  | some ls =>
    if ls.length < 2 then (_fallback_crop w h, 3/10)
    else
      let horizontal_lines := (ls.filter fun s => isHorizontalAngle (angleOf s)).map Seg.hMid
      let vertical_lines := (ls.filter fun s => isVerticalAngle (angleOf s)).map Seg.vMid
      match horizontal_lines, vertical_lines with
      | [], _ => (_fallback_crop w h, 2/5)
      | _, [] => (_fallback_crop w h, 2/5)
      | hm :: hs, vm :: vs =>
        let left_x := vs.foldl min vm
        let right_x := vs.foldl max vm
        let top_y := hs.foldl min hm
        let bottom_y := hs.foldl max hm
        let width := right_x - left_x
        let height := bottom_y - top_y
        if (width : ℚ) < w * (3/10) ∨ (height : ℚ) < h * (3/10) then
          (_fallback_crop w h, 2/5)
        else
          let bx1 := max 0 (left_x + margin)
          let by1 := max 0 (top_y + margin)
          let bx2 := min (w : ℤ) (right_x - margin)
          let by2 := min (h : ℤ) (bottom_y - margin)
          let confidence : ℚ := if (width : ℚ) > w * (1/2) ∧ (height : ℚ) > h * (1/2)
            then 9/10 else 4/5
          (⟨bx1, by1, bx2, by2⟩, confidence)

/-- One contour as seen by `detect_plot_area_contour`: `corners` is the
length of `cv2.approxPolyDP`'s polygon and `(x, y, cw, ch)` the output of
`cv2.boundingRect`. -/
structure Contour where
  corners : ℕ
  x : ℤ
  y : ℤ
  cw : ℤ
  ch : ℤ
deriving DecidableEq

/-- The best-rectangle fold of `autocrop.py:137-154`, carrying
`(best_rect, best_area)`. -/
def bestRectStep (w h : ℕ) (acc : Option CropBox × ℤ) (c : Contour) :
    Option CropBox × ℤ :=
  if 4 ≤ c.corners then
    let area := c.cw * c.ch
    if area > acc.2 ∧ (area : ℚ) > (w : ℚ) * h * (1/5) then
      (some ⟨c.x, c.y, c.x + c.cw, c.y + c.ch⟩, area)
    else acc
  else acc

/-- Model of `detect_plot_area_contour` (`autocrop.py:104-170`).  `contours` is the
oracle for `cv2.findContours` on the near-white threshold image. -/
def detect_plot_area_contour (w h : ℕ) (margin : ℤ) (contours : List Contour) :
    CropBox × ℚ :=
  if contours.isEmpty then (_fallback_crop w h, 3/10)
  else
    match (contours.foldl (bestRectStep w h) (none, 0)).1 with
    | none => (_fallback_crop w h, 3/10)
    | some best =>
      let x1 := min (best.x1 + margin) ((w : ℤ) - 1)
      let y1 := min (best.y1 + margin) ((h : ℤ) - 1)
      let x2 := max (best.x2 - margin) 0
      let y2 := max (best.y2 - margin) 0
      if x2 ≤ x1 ∨ y2 ≤ y1 then (_fallback_crop w h, 3/10)
      else (⟨x1, y1, x2, y2⟩, 7/10)

/-! ## `chart2csv/core/calibration.py` -/

/-- The per-axis body of the `validate_calibration` loop
(`calibration.py:103-127`): missing key, wrong point count, equal pixels or
a negative pixel reject the axis; equal values only print a warning. -/
def validateAxis (points : Option (List (ℚ × ℚ))) : Bool :=
  match points with
  | none => false
  | some ps =>
    match ps with
    | [(px1, _), (px2, _)] =>
      if px1 = px2 then false
      else if px1 < 0 || px2 < 0 then false
      else true
    | _ => false

/-- Model of `validate_calibration` (`calibration.py:86-128`). -/
def validate_calibration (calibration : CalibDict) : Bool :=
  validateAxis calibration.x && validateAxis calibration.y

/-! ## A small JSON value model (for `llm_extraction.py` and `cache.py`) -/

/-- JSON values as produced by `json.loads`. -/
inductive Json where
  | null
  | bool (b : Bool)
  | num (q : ℚ)
  | str (s : String)
  | arr (xs : List Json)
  | obj (fields : List (String × Json))

/-- Key lookup in an object's field list (first match, as in a Python dict
built from parsed JSON). -/
def findField : List (String × Json) → String → Option Json
  | [], _ => none
  | (k, v) :: rest, key => if k = key then some v else findField rest key

/-- Python truthiness of a JSON value (`bool(...)`). -/
def Json.truthy : Json → Bool
  | .null => false
  | .bool b => b
  | .num q => decide (q ≠ 0)
  | .str s => decide (s ≠ "")
  | .arr xs => !xs.isEmpty
  | .obj fs => !fs.isEmpty

/-- Model of `k in result` for an object, key membership. -/
def Json.hasKey (j : Json) (k : String) : Bool :=
  match j with
  | .obj fs => (findField fs k).isSome
  | _ => false

/-! ## `chart2csv/core/llm_extraction.py` -/

/-- The happy-path confidence of `extract_chart_llm`
(`llm_extraction.py:135-150`): base 0.5, +0.2 any data, +0.1 if more than 5
points, +0.1 labels present, +0.1 explicit range fields present, capped at 1. -/
def llmConfidence (fields : List (String × Json)) (data : List Json) : ℚ :=
  let data_points := data.length
  let has_labels := ((findField fields "x_label").getD .null).truthy
    || ((findField fields "y_label").getD .null).truthy
  let has_range := (findField fields "x_min").isSome ∧ (findField fields "x_max").isSome
    ∧ (findField fields "y_min").isSome ∧ (findField fields "y_max").isSome
  let c : ℚ := 1/2
  let c := if data_points > 0 then c + 1/5 else c
  let c := if data_points > 5 then c + 1/10 else c
  let c := if has_labels then c + 1/10 else c
  let c := if has_range then c + 1/10 else c
  min c 1

/-- The response-processing tail of `extract_chart_llm`
(`llm_extraction.py:119-157`).  `parsed` is the oracle for `json.loads`
applied to the fence-stripped, brace-matched content (`none` =
`json.JSONDecodeError`); `raw` is that content string.  Non-object parses
reach the error marker through Python's `"data" in result` semantics: a
false membership test yields the `"No data extracted"` marker, a `TypeError`
(membership or indexing on a number/bool/null, indexing a list) is caught by
the blanket `except Exception` handler; every such branch returns an error
marker with confidence 0. -/
def processResponse (parsed : Option Json) (raw : String) : Json × ℚ :=
  match parsed with
  | none => (.obj [("error", .str "JSON parse error"), ("raw", .str raw)], 0)
  | some result =>
    match result with
    | .obj fields =>
      match findField fields "data" with
      | some (.arr data) => (.obj fields, llmConfidence fields data)
      | _ => (.obj [("error", .str "No data extracted"), ("raw", .str raw)], 0)
    | .str s =>
      if s.containsSubstr "data".toSubstring then
        (.obj [("error", .str "string indices must be integers")], 0)
      else
        (.obj [("error", .str "No data extracted"), ("raw", .str raw)], 0)
    | .arr xs =>
      if xs.any fun j => match j with | .str s => s = "data" | _ => false then
        (.obj [("error", .str "list indices must be integers")], 0)
      else
        (.obj [("error", .str "No data extracted"), ("raw", .str raw)], 0)
    | _ => (.obj [("error", .str "argument is not iterable")], 0)

/-- The environment checks preceding the API call in `extract_chart_llm`
(`llm_extraction.py:50-62`), each a `raise` site. -/
structure LLMEnv where
  apiKeySet : Bool
  mistralAvailable : Bool
  imageLoads : Bool
  encodeOk : Bool

/-- Model of `extract_chart_llm` (`llm_extraction.py:30-157`).  `requestOk` is the
oracle for the network call succeeding; a failed call is caught by the
blanket handler and returned as an error marker with confidence 0. -/
def extract_chart_llm (env : LLMEnv) (requestOk : Bool) (parsed : Option Json)
    (raw : String) : Except String (Json × ℚ) :=
  if !env.apiKeySet then .error "MISTRAL_API_KEY not set"
  else if !env.mistralAvailable then .error "mistralai package not installed"
  else if !env.imageLoads then .error "Could not load image"
  else if !env.encodeOk then .error "Failed to encode image to PNG"
  else if !requestOk then .ok (.obj [("error", .str "request failed")], 0)
  else .ok (processResponse parsed raw)

/-! ## `chart2csv/core/cache.py` -/

/-- A decoded image: its raw byte buffer plus the `C_CONTIGUOUS` flag. -/
structure NpImage where
  bytes : List ℕ
  contiguous : Bool

/-- Model of `compute_image_hash` (`cache.py:22-28`): `hash` is the oracle for
`hashlib.md5(...).hexdigest()`.  Both branches hash the same raw bytes
(`tobytes()` copies a non-contiguous buffer but yields identical content). -/
def compute_image_hash (hash : List ℕ → String) (image : NpImage) : String :=
  if image.contiguous then hash image.bytes else hash image.bytes

/-- Cache file name `f"{backend}_{image_hash}.json"` (`cache.py:44,72`). -/
def cacheFileName (hash : List ℕ → String) (image : NpImage) (backend : String) :
    String :=
  backend ++ "_" ++ compute_image_hash hash image ++ ".json"

/-- The stored payload `{"result": ..., "confidence": ..., "backend": ...}`
(`cache.py:74-78`), modelled at the level of parsed JSON values. -/
structure CacheData where
  result : Json
  confidence : ℚ
  backend : String

/-- A cache file on disk: either a well-formed payload or unparsable
content (`json.JSONDecodeError`/`IOError` on read). -/
inductive CacheEntry where
  | good (d : CacheData)
  | corrupt

/-- The cache directory as a map from file name to file. -/
def FileStore := String → Option CacheEntry

/-- Model of `get_cached_result` (`cache.py:31-52`): missing file or unreadable
content is a miss. -/
def get_cached_result (hash : List ℕ → String) (fs : FileStore) (image : NpImage)
    (backend : String) : Option CacheData :=
  match fs (cacheFileName hash image backend) with
  | some (.good d) => some d
  | some .corrupt => none
  | none => none

/-- Model of `save_to_cache` (`cache.py:55-84`): write-through keyed by image hash
and backend; `writeOk` is the oracle for the `open`/`json.dump` succeeding,
and a failed write is silently swallowed (`except IOError: pass`). -/
def save_to_cache (hash : List ℕ → String) (fs : FileStore) (image : NpImage)
    (result : Json) (confidence : ℚ) (backend : String) (writeOk : Bool) :
    FileStore :=
  if writeOk then
    fun name => if name = cacheFileName hash image backend
      then some (.good ⟨result, confidence, backend⟩) else fs name
  else fs

/-! ## `chart2csv/core/ocr.py` -/

/-- The cache read-through skeleton of `extract_tick_labels`
(`ocr.py:20-89`): check the cache under the requested backend name, else run
recognition (the detection, strip-cropping and backend internals are the
`recognize` oracle) and write the result back.  The returned `Bool` records
whether a recognition call was made.  A cached payload is a three-field dict
and hence always truthy at `ocr.py:48`. -/
def extract_tick_labels (hash : List ℕ → String) (fs : FileStore) (image : NpImage)
    (use_mistral use_cache : Bool) (recognize : Bool → Json × ℚ) :
    (Json × ℚ) × Bool × FileStore :=
  let backend_name := if use_mistral then "mistral" else "tesseract"
  match (if use_cache then get_cached_result hash fs image backend_name else none) with
  | some cached => ((cached.result, cached.confidence), false, fs)
  | none =>
    let rc := recognize use_mistral
    let fs' := if use_cache
      then save_to_cache hash fs image rc.1 rc.2 backend_name true else fs
    (rc, true, fs')

/-- Model of `_extract_with_mistral` (`ocr.py:92-141`): positionally align the
returned value lists with the position-sorted detected ticks; confidence is
matched/total ticks (0 when there are no ticks).  `xValues`/`yValues` are
the oracle for the backend's two returned lists. -/
def _extract_with_mistral (xTicks yTicks : List ℤ) (xValues yValues : List ℚ) :
    (List (ℤ × ℚ) × List (ℤ × ℚ)) × ℚ :=
  let dataX := (xTicks.mergeSort (· ≤ ·)).zip xValues
  let dataY := (yTicks.mergeSort (· ≤ ·)).zip yValues
  let total_ticks := xTicks.length + yTicks.length
  let matched_ticks := dataX.length + dataY.length
  ((dataX, dataY),
    if total_ticks > 0 then (matched_ticks : ℚ) / total_ticks else 0)

/-- One tick's outcome in the `_extract_with_tesseract` loops
(`ocr.py:161-197`): `none` models an empty crop region (`continue` before
counting), `some none` an OCR text that `parse_number` rejects, and
`some (some v)` a parsed value `v`. -/
def TickOutcome := Option (Option ℚ)

/-- Fold one tick into `(ticks_data, total_parsed, total_found)`. -/
def tesseractStep (acc : List (ℤ × ℚ) × ℕ × ℕ) (px : ℤ) (out : TickOutcome) :
    List (ℤ × ℚ) × ℕ × ℕ :=
  match out with
  | none => acc
  | some none => (acc.1, acc.2.1, acc.2.2 + 1)
  | some (some v) => (acc.1 ++ [(px, v)], acc.2.1 + 1, acc.2.2 + 1)

/-- Both loops of `_extract_with_tesseract` over one axis's ticks with the
per-tick OCR outcome oracle `ocrOut`. -/
def tesseractAxis (acc : List (ℤ × ℚ) × ℕ × ℕ) (ticks : List ℤ)
    (ocrOut : ℤ → TickOutcome) : List (ℤ × ℚ) × ℕ × ℕ :=
  ticks.foldl (fun a px => tesseractStep a px (ocrOut px)) acc

/-- Model of `_extract_with_tesseract` (`ocr.py:144-201`): confidence is
parsed/found (0 when nothing was found). -/
def _extract_with_tesseract (xTicks yTicks : List ℤ) (ocrX ocrY : ℤ → TickOutcome) :
    (List (ℤ × ℚ) × List (ℤ × ℚ)) × ℚ :=
  let rx := tesseractAxis ([], 0, 0) xTicks ocrX
  let ry := tesseractAxis (rx.1, rx.2) yTicks ocrY
  let dataX := rx.1
  let dataY := ry.1.drop dataX.length
  let total_parsed := ry.2.1
  let total_found := ry.2.2
  ((dataX, dataY), if total_found > 0 then (total_parsed : ℚ) / total_found else 0)

/-! ## `chart2csv/core/extraction.py` -/

/-- Model of `np.ptp`: max minus min of a nonempty list (0 on empty; every call site
has at least 3 points). -/
def npPtp (l : List ℚ) : ℚ :=
  match l with
  | [] => 0
  | x :: xs => xs.foldl max x - xs.foldl min x

/-- Population variance, `np.std(l) ** 2` (`ddof = 0`). -/
def npVar (l : List ℚ) : ℚ := npMean (l.map fun a => (a - npMean l) ^ 2)

/-- Model of `_calculate_confidence` (`extraction.py:251-287`).  The coefficient of
variation tests `cv < 0.5` and `cv > 1.5` on `cv = std / mean` (with
`mean > 0`) are translated by squaring: `var < mean² / 4` and
`var > 9 · mean² / 4`, which are exactly equivalent and avoid the square
root.  `points.shape[1] == 2` always holds for the N×2 arrays built by the
callers, so the factor-3 guard reduces to `num_points ≥ 3`. -/
def _calculate_confidence (points : List (ℚ × ℚ)) (areas : List ℚ) : ℚ :=
  let num_points := points.length
  if num_points = 0 then 1/10
  else
    let c : ℚ := 1/2
    let c := if 3 ≤ num_points ∧ num_points ≤ 200 then c + 1/5
      else if 500 < num_points then c - 1/5 else c
    let c := if 3 ≤ areas.length then
        (if 0 < npMean areas then
          (if npVar areas < (npMean areas) ^ 2 / 4 then c + 1/5
           else if npVar areas > 9 * (npMean areas) ^ 2 / 4 then c - 1/10 else c)
         else c)
      else c
    let c := if 3 ≤ num_points then
        (if npPtp (points.map (·.1)) > 50 ∧ npPtp (points.map (·.2)) > 50
         then c + 1/10 else c)
      else c
    max (1/10) (min 1 c)

/-- The confidence of `extract_line_points` (`extraction.py:324-337`):
0.1 when no foreground pixel survives, else `min(1, 0.4 + 0.6·continuity)`
with `continuity = len(unique_x) / (x2 - x1)` (0 when the crop has no
width).  `uniqueCols` abstracts `len(unique_x)`. -/
def lineConfidence (uniqueCols : ℕ) (x1 x2 : ℤ) : ℚ :=
  if uniqueCols = 0 then 1/10
  else
    let continuity : ℚ := if x2 - x1 > 0 then (uniqueCols : ℚ) / ((x2 - x1 : ℤ) : ℚ) else 0
    min 1 (2/5 + 3/5 * continuity)

/-- The confidence of `extract_bar_data` (`extraction.py:384`):
`0.5 + 0.4 * (1.0 if len(points) > 0 else 0.0)`. -/
def barConfidence (points : List (ℚ × ℚ)) : ℚ :=
  1/2 + 2/5 * (if points.length > 0 then 1 else 0)

/-! ## Theorems -/

lemma validateAxis_true_iff (p : Option (List (ℚ × ℚ))) :
    validateAxis p = true ↔
      ∃ px1 v1 px2 v2, p = some [(px1, v1), (px2, v2)] ∧ px1 ≠ px2 ∧ 0 ≤ px1 ∧ 0 ≤ px2 := by
  rcases p with _ | ps
  · simp [validateAxis]
  · rcases ps with _ | ⟨⟨px1, v1⟩, _ | ⟨⟨px2, v2⟩, _ | ⟨q, rest⟩⟩⟩
    · simp [validateAxis]
    · simp [validateAxis]
    · simp only [validateAxis]
      split_ifs with h1 h2
      · simp only [Bool.false_eq_true, false_iff]
        rintro ⟨a, b, c, d, he, hne, -, -⟩
        simp only [Option.some.injEq, List.cons.injEq, Prod.mk.injEq, and_true] at he
        obtain ⟨⟨ha, -⟩, hc, -⟩ := he
        subst ha
        subst hc
        exact hne h1
      · simp only [Bool.false_eq_true, false_iff]
        rintro ⟨a, b, c, d, he, -, hc, hd⟩
        simp only [Option.some.injEq, List.cons.injEq, Prod.mk.injEq, and_true] at he
        obtain ⟨⟨ha, -⟩, hcc, -⟩ := he
        subst ha
        subst hcc
        simp only [Bool.or_eq_true, decide_eq_true_eq] at h2
        rcases h2 with h | h
        · exact absurd hc (not_le.mpr h)
        · exact absurd hd (not_le.mpr h)
      · simp only [true_iff]
        simp only [Bool.or_eq_true, decide_eq_true_eq, not_or, not_lt] at h2
        exact ⟨px1, v1, px2, v2, rfl, h1, h2.1, h2.2⟩
    · simp [validateAxis]

/-- C10: `validate_calibration` accepts a calibration exactly when each of
the keys `"x"` and `"y"` is present with exactly two points whose pixel
coordinates are distinct and nonnegative; equal values on an axis only
produce a warning and do not affect acceptance (the value components are
unconstrained in the characterisation below). -/
theorem C10_validate_calibration_iff (c : CalibDict) :
    validate_calibration c = true ↔
      ((∃ px1 v1 px2 v2, c.x = some [(px1, v1), (px2, v2)] ∧ px1 ≠ px2 ∧ 0 ≤ px1 ∧ 0 ≤ px2) ∧
       (∃ px1 v1 px2 v2, c.y = some [(px1, v1), (px2, v2)] ∧ px1 ≠ px2 ∧ 0 ≤ px1 ∧ 0 ≤ px2)) := by
  unfold validate_calibration
  rw [Bool.and_eq_true, validateAxis_true_iff, validateAxis_true_iff]

/-- C5: on a log-scale axis transform with nonzero slope, the applied
mapping `pixel ↦ 10 ^ (slope · pixel + intercept)` is strictly increasing
in the pixel when the slope is positive and strictly decreasing when the
slope is negative. -/
theorem C5_log_transform_strictly_monotonic (t : AxisTransform) (p q : ℚ)
    (hscale : t.scale = "log") (hpq : p < q) :
    (0 < t.a → applyAxis t p < applyAxis t q) ∧
    (t.a < 0 → applyAxis t q < applyAxis t p) := by
  have hne : ¬ t.scale = "linear" := by rw [hscale]; decide
  unfold applyAxis
  rw [if_neg hne, if_neg hne]
  have h10 : (1 : ℝ) < 10 := by norm_num
  constructor <;> intro ha
  · refine (Real.rpow_lt_rpow_left_iff h10).mpr ?_
    have : t.a * p + t.b < t.a * q + t.b :=
      add_lt_add_right (mul_lt_mul_of_pos_left hpq ha) t.b
    exact_mod_cast this
  · refine (Real.rpow_lt_rpow_left_iff h10).mpr ?_
    have : t.a * q + t.b < t.a * p + t.b :=
      add_lt_add_right (mul_lt_mul_of_neg_left hpq ha) t.b
    exact_mod_cast this

/-- Witness for C5 at slope `1` and slope `-1`. -/
theorem C5_log_transform_strictly_monotonic_witness :
    applyAxis ⟨1, 0, "log"⟩ 0 < applyAxis ⟨1, 0, "log"⟩ 1 ∧
    applyAxis ⟨-1, 0, "log"⟩ 1 < applyAxis ⟨-1, 0, "log"⟩ 0 :=
  ⟨(C5_log_transform_strictly_monotonic ⟨1, 0, "log"⟩ 0 1 rfl (by norm_num)).1 (by norm_num),
   (C5_log_transform_strictly_monotonic ⟨-1, 0, "log"⟩ 0 1 rfl (by norm_num)).2 (by norm_num)⟩

lemma compute_image_hash_eq_of_bytes (hash : List ℕ → String) (img img' : NpImage)
    (h : img'.bytes = img.bytes) :
    compute_image_hash hash img' = compute_image_hash hash img := by
  unfold compute_image_hash
  cases img'.contiguous <;> cases img.contiguous <;> simp [h]

/-- C6: cache round-trip.  After a successful `save_to_cache` under a
backend name, `get_cached_result` on any image with the same raw bytes and
the same backend returns exactly the stored payload; the cache key depends
only on the image bytes and the backend name; and `extract_tick_labels`
serves the saved payload from the cache without invoking the recognition
backend again (third component of the triple is the backend-called flag). -/
theorem C6_cache_roundtrip (hash : List ℕ → String) (fs : FileStore)
    (img img' : NpImage) (res : Json) (conf : ℚ) (backend : String)
    (use_mistral : Bool) (recognize : Bool → Json × ℚ)
    (hbytes : img'.bytes = img.bytes) :
    (get_cached_result hash (save_to_cache hash fs img res conf backend true) img' backend
      = some ⟨res, conf, backend⟩) ∧
    (cacheFileName hash img' backend = cacheFileName hash img backend) ∧
    (extract_tick_labels hash
        (save_to_cache hash fs img res conf
          (if use_mistral then "mistral" else "tesseract") true)
        img' use_mistral true recognize
      = ((res, conf), false,
         save_to_cache hash fs img res conf
           (if use_mistral then "mistral" else "tesseract") true)) := by
  have hname : ∀ bk : String, cacheFileName hash img' bk = cacheFileName hash img bk := by
    intro bk
    unfold cacheFileName
    rw [compute_image_hash_eq_of_bytes hash img img' hbytes]
  have hget : ∀ bk : String,
      get_cached_result hash (save_to_cache hash fs img res conf bk true) img' bk
        = some ⟨res, conf, bk⟩ := by
    intro bk
    unfold get_cached_result save_to_cache
    rw [if_pos rfl, hname bk, if_pos rfl]
  refine ⟨hget backend, hname backend, ?_⟩
  simp [extract_tick_labels, hget]

/-- Witness for C6: two images with identical bytes but different
contiguity flags, tesseract backend, empty initial store. -/
theorem C6_cache_roundtrip_witness :
    (get_cached_result (fun _ => "h")
        (save_to_cache (fun _ => "h") (fun _ => none) ⟨[0, 1], true⟩ .null (1/2)
          "tesseract" true)
        ⟨[0, 1], false⟩ "tesseract" = some ⟨.null, 1/2, "tesseract"⟩) ∧
    (cacheFileName (fun _ => "h") ⟨[0, 1], false⟩ "tesseract"
      = cacheFileName (fun _ => "h") ⟨[0, 1], true⟩ "tesseract") ∧
    (extract_tick_labels (fun _ => "h")
        (save_to_cache (fun _ => "h") (fun _ => none) ⟨[0, 1], true⟩ .null (1/2)
          (if false then "mistral" else "tesseract") true)
        ⟨[0, 1], false⟩ false true (fun _ => (.null, 0))
      = ((.null, 1/2), false,
         save_to_cache (fun _ => "h") (fun _ => none) ⟨[0, 1], true⟩ .null (1/2)
           (if false then "mistral" else "tesseract") true)) :=
  C6_cache_roundtrip (fun _ => "h") (fun _ => none) ⟨[0, 1], true⟩ ⟨[0, 1], false⟩
    .null (1/2) "tesseract" false (fun _ => (.null, 0)) rfl

/-- C7: when the environment checks pass (API key set, package available,
image loads and encodes) and the request itself returns, any malformed
response content — unparsable as JSON, or parsing to anything other than an
object carrying a `"data"` list — makes `extract_chart_llm` return an
error-marker dict with confidence 0 rather than propagate an exception. -/
theorem C7_malformed_response_error_marker (env : LLMEnv) (requestOk : Bool)
    (parsed : Option Json) (raw : String)
    (hk : env.apiKeySet = true) (hm : env.mistralAvailable = true)
    (hi : env.imageLoads = true) (he : env.encodeOk = true) (hr : requestOk = true)
    (hmal : parsed = none ∨ ∃ j, parsed = some j ∧
      (∀ fields, j = Json.obj fields → ∀ xs, findField fields "data" ≠ some (.arr xs))) :
    extract_chart_llm env requestOk parsed raw = .ok (processResponse parsed raw) ∧
      (processResponse parsed raw).1.hasKey "error" = true ∧
      (processResponse parsed raw).2 = 0 := by
  unfold extract_chart_llm
  rw [hk, hm, hi, he, hr]
  simp only [Bool.not_true, Bool.false_eq_true, if_false]
  refine ⟨by first | rfl | trivial, ?_⟩
  unfold processResponse
  rcases hmal with rfl | ⟨j, rfl, hj⟩
  · exact ⟨rfl, rfl⟩
  · rcases j with _ | b | q | s | xs | fields
    · exact ⟨rfl, rfl⟩
    · exact ⟨rfl, rfl⟩
    · exact ⟨rfl, rfl⟩
    · dsimp only
      split_ifs <;> exact ⟨rfl, rfl⟩
    · dsimp only
      split_ifs <;> exact ⟨rfl, rfl⟩
    · dsimp only
      rcases hd : findField fields "data" with _ | v
      · exact ⟨rfl, rfl⟩
      · rcases v with _ | b | q | s | ys | gs
        · exact ⟨rfl, rfl⟩
        · exact ⟨rfl, rfl⟩
        · exact ⟨rfl, rfl⟩
        · exact ⟨rfl, rfl⟩
        · exact absurd hd (hj fields rfl ys)
        · exact ⟨rfl, rfl⟩

/-- Witness for C7 at a response parsing to an object without a data list. -/
theorem C7_malformed_response_error_marker_witness :
    extract_chart_llm ⟨true, true, true, true⟩ true
        (some (.obj [("chart_type", .str "line")])) "raw" =
      .ok (processResponse (some (.obj [("chart_type", .str "line")])) "raw") ∧
    (processResponse (some (.obj [("chart_type", .str "line")])) "raw").1.hasKey
        "error" = true ∧
    (processResponse (some (.obj [("chart_type", .str "line")])) "raw").2 = 0 :=
  C7_malformed_response_error_marker ⟨true, true, true, true⟩ true
    (some (.obj [("chart_type", .str "line")])) "raw" rfl rfl rfl rfl rfl
    (Or.inr ⟨_, rfl, by
      rintro fields h xs
      cases h
      simp [findField]⟩)

lemma buildCalibAxis_linear (lg : ℚ → ℚ) (ax : String) (p1 v1 p2 v2 : ℚ)
    (h : p1 ≠ p2) :
    buildCalibAxis lg ax Scale.linear [(p1, v1), (p2, v2)] =
      .ok ⟨(v2 - v1) / (p2 - p1), v1 - (v2 - v1) / (p2 - p1) * p1, "linear"⟩ := by
  have hne : ¬ (p2 - p1 = 0) := sub_ne_zero.mpr (Ne.symm h)
  simp only [buildCalibAxis]
  rw [if_neg (by norm_num), if_neg hne, if_pos trivial]
  rfl

lemma applyAxis_linear (a b p : ℚ) :
    applyAxis ⟨a, b, "linear"⟩ p = ((a * p + b : ℚ) : ℝ) := by
  unfold applyAxis
  rw [if_pos rfl]

/-- C1: with exactly two manual calibration points per axis at distinct
pixels (and the default linear scales), `build_transform` succeeds with fit
error 0 and the transform applied through `apply_transform` maps each
calibration pixel back exactly to its own calibration value; concretely,
x-axis points (50, 0) and (550, 5) yield slope 1/100 and intercept −1/2 and
pixel 250 maps to value 2. -/
theorem C1_manual_calibration_roundtrip
    (polyfit : List ℚ → List ℚ → ℚ × ℚ) (log10 : ℚ → ℚ) (ticks : Option TicksDict)
    (px1 vx1 px2 vx2 py1 vy1 py2 vy2 : ℚ)
    (hx : px1 ≠ px2) (hy : py1 ≠ py2) :
    (build_transform polyfit log10 ticks
          (some ⟨some [(px1, vx1), (px2, vx2)], some [(py1, vy1), (py2, vy2)]⟩)
          Scale.linear Scale.linear =
        .ok (⟨⟨(vx2 - vx1) / (px2 - px1), vx1 - (vx2 - vx1) / (px2 - px1) * px1, "linear"⟩,
              ⟨(vy2 - vy1) / (py2 - py1), vy1 - (vy2 - vy1) / (py2 - py1) * py1, "linear"⟩⟩,
          0) ∧
      apply_transform
          ⟨⟨(vx2 - vx1) / (px2 - px1), vx1 - (vx2 - vx1) / (px2 - px1) * px1, "linear"⟩,
           ⟨(vy2 - vy1) / (py2 - py1), vy1 - (vy2 - vy1) / (py2 - py1) * py1, "linear"⟩⟩
          [(px1, py1), (px2, py2)] =
        [((vx1 : ℝ), (vy1 : ℝ)), ((vx2 : ℝ), (vy2 : ℝ))]) ∧
    build_transform polyfit log10 none
        (some ⟨some [(50, 0), (550, 5)], some [(0, 0), (1, 1)]⟩)
        Scale.linear Scale.linear =
      .ok (⟨⟨1/100, -(1/2), "linear"⟩, ⟨1, 0, "linear"⟩⟩, 0) ∧
    applyAxis ⟨1/100, -(1/2), "linear"⟩ 250 = (2 : ℝ) := by
  refine ⟨?_, ?_, ?_⟩
  · have hxe := buildCalibAxis_linear log10 "x" px1 vx1 px2 vx2 hx
    have hye := buildCalibAxis_linear log10 "y" py1 vy1 py2 vy2 hy
    refine ⟨?_, ?_⟩
    · show _build_from_calibration log10
        ⟨some [(px1, vx1), (px2, vx2)], some [(py1, vy1), (py2, vy2)]⟩
        Scale.linear Scale.linear = _
      unfold _build_from_calibration
      simp only [Option.getD_some, hxe, hye]
    · have key : ∀ p1 v1 p2 v2 : ℚ, p1 ≠ p2 →
          (v2 - v1) / (p2 - p1) * p2 + (v1 - (v2 - v1) / (p2 - p1) * p1) = v2 := by
        intro p1 v1 p2 v2 h
        have hne : (p2 - p1) ≠ 0 := sub_ne_zero.mpr (Ne.symm h)
        field_simp
        ring
      unfold apply_transform
      simp only [List.map_cons, List.map_nil, applyAxis_linear]
      have e1 : (vx2 - vx1) / (px2 - px1) * px1 +
          (vx1 - (vx2 - vx1) / (px2 - px1) * px1) = vx1 := by ring
      have e2 : (vy2 - vy1) / (py2 - py1) * py1 +
          (vy1 - (vy2 - vy1) / (py2 - py1) * py1) = vy1 := by ring
      rw [e1, e2, key px1 vx1 px2 vx2 hx, key py1 vy1 py2 vy2 hy]
  · have hxe : buildCalibAxis log10 "x" Scale.linear [(50, 0), (550, 5)] =
        .ok ⟨1/100, -(1/2), "linear"⟩ := by
      rw [buildCalibAxis_linear log10 "x" 50 0 550 5 (by norm_num)]
      norm_num
    have hye : buildCalibAxis log10 "y" Scale.linear [(0, 0), (1, 1)] =
        .ok ⟨1, 0, "linear"⟩ := by
      rw [buildCalibAxis_linear log10 "y" 0 0 1 1 (by norm_num)]
      norm_num
    show _build_from_calibration log10
        ⟨some [(50, 0), (550, 5)], some [(0, 0), (1, 1)]⟩
        Scale.linear Scale.linear = _
    unfold _build_from_calibration
    simp only [Option.getD_some, hxe, hye]
  · rw [applyAxis_linear]
    norm_num

/-- Witness for C1 at Scenario A's x-axis points and a unit y-axis. -/
theorem C1_manual_calibration_roundtrip_witness :
    apply_transform
        ⟨⟨((5 : ℚ) - 0) / (550 - 50), 0 - ((5 : ℚ) - 0) / (550 - 50) * 50, "linear"⟩,
         ⟨((1 : ℚ) - 0) / (1 - 0), 0 - ((1 : ℚ) - 0) / (1 - 0) * 0, "linear"⟩⟩
        [(50, 0), (550, 1)] =
      [((((0 : ℚ)) : ℝ), (((0 : ℚ)) : ℝ)), ((((5 : ℚ)) : ℝ), (((1 : ℚ)) : ℝ))] ∧
    build_transform (fun _ _ => (0, 0)) (fun q => q) none
        (some ⟨some [(50, 0), (550, 5)], some [(0, 0), (1, 1)]⟩)
        Scale.linear Scale.linear =
      .ok (⟨⟨1/100, -(1/2), "linear"⟩, ⟨1, 0, "linear"⟩⟩, 0) ∧
    applyAxis ⟨1/100, -(1/2), "linear"⟩ 250 = (2 : ℝ) := by
  have h := C1_manual_calibration_roundtrip (fun _ _ => (0, 0)) (fun q => q) none
    50 0 550 5 0 0 1 1 (by norm_num) (by norm_num)
  exact ⟨h.1.2, h.2.1, h.2.2⟩

/-- Concrete `polyfit` oracle used in closed counterexamples. -/
def pf0 : List ℚ → List ℚ → ℚ × ℚ := fun _ _ => (0, 0)

/-- Concrete `log10` oracle used in closed counterexamples. -/
def lg0 : ℚ → ℚ := fun q => q

lemma buildCalibAxis_short (lg : ℚ → ℚ) (ax : String) (sc : Scale)
    (ps : List (ℚ × ℚ)) (h : ps.length < 2) :
    buildCalibAxis lg ax sc ps = .error (.config ax) := by
  unfold buildCalibAxis
  rw [if_pos h]

lemma buildCalibAxis_ok_of_distinct (lg : ℚ → ℚ) (ax : String) (sc : Scale)
    (ps : List (ℚ × ℚ)) (hlen : 2 ≤ ps.length)
    (hd : ∀ p1 p2 r, ps = p1 :: p2 :: r → p1.1 ≠ p2.1) :
    ∃ t, buildCalibAxis lg ax sc ps = .ok t := by
  rcases ps with _ | ⟨⟨p1, w1⟩, _ | ⟨⟨p2, w2⟩, r⟩⟩
  · simp at hlen
  · simp at hlen
  · have hne : ¬ (p2 - p1 = 0) := by
      have := hd (p1, w1) (p2, w2) r rfl
      exact sub_ne_zero.mpr fun hc => this (by simpa using hc.symm)
    simp only [buildCalibAxis]
    rw [if_neg (by norm_num), if_neg hne]
    split_ifs <;> exact ⟨_, rfl⟩

lemma buildCalibAxis_samePixel (lg : ℚ → ℚ) (ax : String) (sc : Scale)
    (p v1 v2 : ℚ) (rest : List (ℚ × ℚ)) :
    buildCalibAxis lg ax sc ((p, v1) :: (p, v2) :: rest) = .error .zeroDiv := by
  simp only [buildCalibAxis]
  rw [if_neg (by simp), if_pos (sub_self p)]

lemma buildCalibAxis_ne_config (lg : ℚ → ℚ) (ax ax' : String) (sc : Scale)
    (ps : List (ℚ × ℚ)) (hlen : 2 ≤ ps.length) :
    ∀ e, buildCalibAxis lg ax sc ps = .error e → e ≠ .config ax' := by
  rcases ps with _ | ⟨⟨p1, w1⟩, _ | ⟨⟨p2, w2⟩, r⟩⟩
  · simp at hlen
  · simp at hlen
  · intro e he
    simp only [buildCalibAxis] at he
    rw [if_neg (by norm_num)] at he
    split_ifs at he <;> cases he <;> rintro ⟨⟩

/-- C9: the manual-calibration slope computation divides by `px2 − px1`
with no guard: at the concrete input with both x-axis points at pixel 100
(linear scales), `build_transform` fails with the unhandled
division-by-zero error rather than the configuration error; and whenever
the first two points of each supplied axis have distinct pixel
coordinates, the division-by-zero error is unreachable. -/
theorem C9_calibration_division_by_zero :
    (build_transform pf0 lg0 none
        (some ⟨some [(100, 0), (100, 5)], some [(0, 0), (1, 1)]⟩)
        Scale.linear Scale.linear = .error .zeroDiv) ∧
    (∀ (polyfit : List ℚ → List ℚ → ℚ × ℚ) (log10 : ℚ → ℚ)
        (ticks : Option TicksDict) (c : CalibDict) (xs ys : Scale),
      (∀ p1 p2 r, c.x.getD [] = p1 :: p2 :: r → p1.1 ≠ p2.1) →
      (∀ p1 p2 r, c.y.getD [] = p1 :: p2 :: r → p1.1 ≠ p2.1) →
      build_transform polyfit log10 ticks (some c) xs ys ≠ .error .zeroDiv) := by
  constructor
  · show _build_from_calibration lg0
        ⟨some [(100, 0), (100, 5)], some [(0, 0), (1, 1)]⟩
        Scale.linear Scale.linear = _
    unfold _build_from_calibration
    simp only [Option.getD_some, buildCalibAxis_samePixel]
  · intro polyfit log10 ticks c xs ys hdx hdy
    simp only [build_transform]
    split_ifs with ht
    · unfold _build_from_calibration
      rcases Nat.lt_or_ge (c.x.getD []).length 2 with hx | hx
      · rw [buildCalibAxis_short log10 "x" xs _ hx]
        intro h
        cases h
      · obtain ⟨tx, htx⟩ := buildCalibAxis_ok_of_distinct log10 "x" xs _ hx hdx
        rw [htx]
        rcases Nat.lt_or_ge (c.y.getD []).length 2 with hy | hy
        · rw [buildCalibAxis_short log10 "y" ys _ hy]
          intro h
          cases h
        · obtain ⟨ty, hty⟩ := buildCalibAxis_ok_of_distinct log10 "y" ys _ hy hdy
          rw [hty]
          intro h
          cases h
    · rcases ticks with _ | t
      · intro h
        cases h
      · dsimp only
        split_ifs <;> intro h <;> cases h

/-- Witness for C9's unreachability direction at a distinct-pixel input. -/
theorem C9_calibration_division_by_zero_witness :
    build_transform pf0 lg0 none
        (some ⟨some [(0, 0), (1, 1)], some [(0, 0), (2, 3)]⟩)
        Scale.linear Scale.linear ≠ .error .zeroDiv := by
  refine C9_calibration_division_by_zero.2 pf0 lg0 none
    ⟨some [(0, 0), (1, 1)], some [(0, 0), (2, 3)]⟩ Scale.linear Scale.linear ?_ ?_ <;>
    · rintro ⟨a, b⟩ ⟨e, d⟩ r h
      simp only [Option.getD_some, List.cons.injEq, Prod.mk.injEq] at h
      obtain ⟨⟨rfl, -⟩, ⟨rfl, -⟩, -⟩ := h
      norm_num

lemma buildTicksAxis_short (polyfit : List ℚ → List ℚ → ℚ × ℚ) (log10 : ℚ → ℚ)
    (sc : Scale) (pts : List (ℚ × ℚ)) (h : pts.length < 2) :
    buildTicksAxis polyfit log10 sc pts = (⟨1, 0, "linear"⟩, 0, false) := by
  unfold buildTicksAxis
  rw [if_pos h]

/-- Discriminator for the configuration-error outcome of `build_transform`
(the spec's `ConfigurationError`, the code's insufficient-points
`ValueError`). -/
def isConfigError (r : Except BuildError (TransformDict × ℚ)) : Bool :=
  match r with
  | .error (.config _) => true
  | _ => false

lemma isConfigError_iff (r : Except BuildError (TransformDict × ℚ)) :
    isConfigError r = true ↔ ∃ ax, r = .error (.config ax) := by
  rcases r with e | v
  · rcases e with ax | _ | _ <;> simp [isConfigError]
  · simp [isConfigError]

/-- C4 counterexample to the claim's "exactly when": with both x-axis
calibration points at the same pixel and an empty y-axis list, some axis
has fewer than 2 points, yet `build_transform` fails with the x-axis
division-by-zero error and never with the configuration error. -/
theorem C4_config_error_counterexample :
    build_transform pf0 lg0 none (some ⟨some [(1, 0), (1, 5)], some []⟩)
        Scale.linear Scale.linear = .error .zeroDiv ∧
    ((⟨some [(1, 0), (1, 5)], some []⟩ : CalibDict).y.getD []).length < 2 ∧
    isConfigError (build_transform pf0 lg0 none
        (some ⟨some [(1, 0), (1, 5)], some []⟩) Scale.linear Scale.linear) = false := by
  have h1 : build_transform pf0 lg0 none (some ⟨some [(1, 0), (1, 5)], some []⟩)
      Scale.linear Scale.linear = .error .zeroDiv := by
    show _build_from_calibration lg0 ⟨some [(1, 0), (1, 5)], some []⟩
        Scale.linear Scale.linear = _
    unfold _build_from_calibration
    simp only [Option.getD_some, buildCalibAxis_samePixel]
  refine ⟨h1, by norm_num, ?_⟩
  rw [h1]
  rfl

/-- C4 (amended): provided that on each axis carrying at least two
calibration points the first two pixel coordinates differ (otherwise the
unguarded division preempts everything, see the counterexample),
`build_transform`'s manual path raises the configuration error exactly when
the calibration dict is nonempty and some axis has fewer than 2 points; the
OCR-tick path never raises, and an axis with fewer than 2 ticks is silently
assigned the identity transform with slope 1, intercept 0 and linear scale. -/
theorem C4_config_error_amended
    (polyfit : List ℚ → List ℚ → ℚ × ℚ) (log10 : ℚ → ℚ) :
    (∀ (ticks : Option TicksDict) (c : CalibDict) (xs ys : Scale),
      (∀ p1 p2 r, c.x.getD [] = p1 :: p2 :: r → p1.1 ≠ p2.1) →
      (∀ p1 p2 r, c.y.getD [] = p1 :: p2 :: r → p1.1 ≠ p2.1) →
      (isConfigError (build_transform polyfit log10 ticks (some c) xs ys) = true ↔
        (c.truthy = true ∧
          ((c.x.getD []).length < 2 ∨ (c.y.getD []).length < 2)))) ∧
    (∀ (t : TicksDict) (xs ys : Scale), t.truthy = true →
      build_transform polyfit log10 (some t) none xs ys =
        .ok (_build_from_ticks polyfit log10 t xs ys)) ∧
    (∀ (t : TicksDict) (xs ys : Scale),
      ((t.x.getD []).length < 2 →
        (_build_from_ticks polyfit log10 t xs ys).1.x = ⟨1, 0, "linear"⟩) ∧
      ((t.y.getD []).length < 2 →
        (_build_from_ticks polyfit log10 t xs ys).1.y = ⟨1, 0, "linear"⟩)) := by
  refine ⟨?_, ?_, ?_⟩
  · intro ticks c xs ys hdx hdy
    rw [isConfigError_iff]
    constructor
    · rintro ⟨ax, hax⟩
      simp only [build_transform] at hax
      by_cases ht : c.truthy = true
      · rw [if_pos ht] at hax
        refine ⟨ht, ?_⟩
        by_contra hshort
        push_neg at hshort
        obtain ⟨tx, htx⟩ :=
          buildCalibAxis_ok_of_distinct log10 "x" xs (c.x.getD []) hshort.1 hdx
        obtain ⟨ty, hty⟩ :=
          buildCalibAxis_ok_of_distinct log10 "y" ys (c.y.getD []) hshort.2 hdy
        unfold _build_from_calibration at hax
        rw [htx, hty] at hax
        simp at hax
      · rw [if_neg ht] at hax
        rcases ticks with _ | t
        · simp at hax
        · dsimp only at hax
          split_ifs at hax <;> simp at hax
    · rintro ⟨ht, hshort⟩
      simp only [build_transform]
      rw [if_pos ht]
      unfold _build_from_calibration
      rcases Nat.lt_or_ge (c.x.getD []).length 2 with hx | hx
      · rw [buildCalibAxis_short log10 "x" xs _ hx]
        exact ⟨"x", rfl⟩
      · obtain ⟨tx, htx⟩ :=
          buildCalibAxis_ok_of_distinct log10 "x" xs (c.x.getD []) hx hdx
        rw [htx]
        have hy : (c.y.getD []).length < 2 := by
          rcases hshort with h | h
          · omega
          · exact h
        rw [buildCalibAxis_short log10 "y" ys _ hy]
        exact ⟨"y", rfl⟩
  · intro t xs ys ht
    simp only [build_transform]
    rw [if_pos ht]
  · intro t xs ys
    constructor
    · intro h
      unfold _build_from_ticks
      simp only [buildTicksAxis_short polyfit log10 xs _ h]
    · intro h
      unfold _build_from_ticks
      simp only [buildTicksAxis_short polyfit log10 ys _ h]

/-- Witness for C4's amended statement: a truthy calibration with a short
y axis yields the configuration error, and a ticks dict with a short x axis
succeeds with the identity transform on x. -/
theorem C4_config_error_amended_witness :
    isConfigError (build_transform pf0 lg0 none
        (some ⟨some [(0, 0), (1, 1)], none⟩) Scale.linear Scale.linear) = true ∧
    build_transform pf0 lg0 (some ⟨some [], none⟩) none Scale.linear Scale.linear =
      .ok (_build_from_ticks pf0 lg0 ⟨some [], none⟩ Scale.linear Scale.linear) ∧
    (_build_from_ticks pf0 lg0 ⟨some [], none⟩ Scale.linear Scale.linear).1.x =
      ⟨1, 0, "linear"⟩ := by
  have hdx : ∀ p1 p2 r, ((⟨some [(0, 0), (1, 1)], none⟩ : CalibDict).x.getD [])
      = p1 :: p2 :: r → p1.1 ≠ p2.1 := by
    rintro ⟨a, b⟩ ⟨e, d⟩ r h
    simp only [Option.getD_some, List.cons.injEq, Prod.mk.injEq] at h
    obtain ⟨⟨rfl, -⟩, ⟨rfl, -⟩, -⟩ := h
    norm_num
  have hdy : ∀ p1 p2 r, ((⟨some [(0, 0), (1, 1)], none⟩ : CalibDict).y.getD [])
      = p1 :: p2 :: r → p1.1 ≠ p2.1 := by
    rintro p1 p2 r h
    simp at h
  refine ⟨((C4_config_error_amended pf0 lg0).1 none
      ⟨some [(0, 0), (1, 1)], none⟩ Scale.linear Scale.linear hdx hdy).mpr
      ⟨rfl, Or.inr (by norm_num)⟩,
    (C4_config_error_amended pf0 lg0).2.1 ⟨some [], none⟩ Scale.linear Scale.linear rfl,
    ((C4_config_error_amended pf0 lg0).2.2 ⟨some [], none⟩ Scale.linear Scale.linear).1
      (by norm_num)⟩

lemma tesseractStep_counts (acc : List (ℤ × ℚ) × ℕ × ℕ) (px : ℤ) (out : TickOutcome)
    (h : acc.2.1 ≤ acc.2.2) :
    (tesseractStep acc px out).2.1 ≤ (tesseractStep acc px out).2.2 := by
  rcases out with _ | _ | v
  · exact h
  · exact Nat.le_succ_of_le h
  · exact Nat.succ_le_succ h

lemma tesseractAxis_counts (ticks : List ℤ) (f : ℤ → TickOutcome) :
    ∀ acc : List (ℤ × ℚ) × ℕ × ℕ, acc.2.1 ≤ acc.2.2 →
      (tesseractAxis acc ticks f).2.1 ≤ (tesseractAxis acc ticks f).2.2 := by
  induction ticks with
  | nil => exact fun acc h => h
  | cons t ts ih =>
    intro acc h
    show (tesseractAxis (tesseractStep acc t (f t)) ts f).2.1 ≤
      (tesseractAxis (tesseractStep acc t (f t)) ts f).2.2
    exact ih _ (tesseractStep_counts acc t (f t) h)

lemma llmConfidence_bounds (fields : List (String × Json)) (data : List Json) :
    0 ≤ llmConfidence fields data ∧ llmConfidence fields data ≤ 1 := by
  unfold llmConfidence
  dsimp only
  split_ifs <;> norm_num

/-- C8: every confidence computed by the core lies in [0,1]: the shared
scatter confidence `_calculate_confidence`, the line and bar extraction
confidences, both plot-area detectors, the OCR confidence of the mistral
path (matched/total ticks, 0 when there are none) and of the tesseract
path (parsed/found), and the vision-extractor confidence on every response
(including the error-marker branches). -/
theorem C8_confidences_in_unit_interval :
    (∀ (points : List (ℚ × ℚ)) (areas : List ℚ),
      0 ≤ _calculate_confidence points areas ∧ _calculate_confidence points areas ≤ 1) ∧
    (∀ (uniqueCols : ℕ) (x1 x2 : ℤ),
      0 ≤ lineConfidence uniqueCols x1 x2 ∧ lineConfidence uniqueCols x1 x2 ≤ 1) ∧
    (∀ points : List (ℚ × ℚ), 0 ≤ barConfidence points ∧ barConfidence points ≤ 1) ∧
    (∀ (angleOf : Seg → ℚ) (w h : ℕ) (margin : ℤ) (lines : Option (List Seg)),
      0 ≤ (detect_plot_area angleOf w h margin lines).2 ∧
        (detect_plot_area angleOf w h margin lines).2 ≤ 1) ∧
    (∀ (w h : ℕ) (margin : ℤ) (contours : List Contour),
      0 ≤ (detect_plot_area_contour w h margin contours).2 ∧
        (detect_plot_area_contour w h margin contours).2 ≤ 1) ∧
    (∀ (xT yT : List ℤ) (xV yV : List ℚ),
      0 ≤ (_extract_with_mistral xT yT xV yV).2 ∧
        (_extract_with_mistral xT yT xV yV).2 ≤ 1) ∧
    (∀ (xT yT : List ℤ) (ocrX ocrY : ℤ → TickOutcome),
      0 ≤ (_extract_with_tesseract xT yT ocrX ocrY).2 ∧
        (_extract_with_tesseract xT yT ocrX ocrY).2 ≤ 1) ∧
    (∀ (parsed : Option Json) (raw : String),
      0 ≤ (processResponse parsed raw).2 ∧ (processResponse parsed raw).2 ≤ 1) := by
  refine ⟨?_, ?_, ?_, ?_, ?_, ?_, ?_, ?_⟩
  · intro points areas
    unfold _calculate_confidence
    dsimp only
    rcases Nat.eq_zero_or_pos points.length with h | h
    · rw [if_pos h]
      norm_num
    · rw [if_neg (Nat.pos_iff_ne_zero.mp h)]
      exact ⟨le_trans (by norm_num) (le_max_left _ _),
        max_le (by norm_num) (min_le_left _ _)⟩
  · intro uniqueCols x1 x2
    unfold lineConfidence
    split_ifs with h1 h2
    · norm_num
    · have hd : (0 : ℚ) ≤ (uniqueCols : ℚ) / ((x2 - x1 : ℤ) : ℚ) := by
        apply div_nonneg (by positivity)
        exact_mod_cast le_of_lt h2
      constructor
      · exact le_min (by norm_num) (by linarith)
      · exact min_le_left _ _
    · norm_num
  · intro points
    unfold barConfidence
    split_ifs <;> norm_num
  · intro angleOf w h margin lines
    rcases lines with _ | ls
    · norm_num [detect_plot_area]
    · simp only [detect_plot_area]
      split_ifs with h1
      · norm_num
      · rcases hH : (ls.filter fun s => isHorizontalAngle (angleOf s)).map Seg.hMid
          with _ | ⟨a, as⟩ <;>
          rcases hV : (ls.filter fun s => isVerticalAngle (angleOf s)).map Seg.vMid
            with _ | ⟨b, bs⟩ <;>
          simp only [hH, hV] <;>
          first
            | (split_ifs <;> norm_num)
            | norm_num
  · intro w h margin contours
    simp only [detect_plot_area_contour]
    split_ifs with h1
    · norm_num
    · rcases hbest : (contours.foldl (bestRectStep w h) (none, 0)).1 with _ | best <;>
        simp only [hbest] <;>
        first
          | (split_ifs <;> norm_num)
          | norm_num
  · intro xT yT xV yV
    simp only [_extract_with_mistral]
    split_ifs with h
    · have hx : ((xT.mergeSort (· ≤ ·)).zip xV).length ≤ xT.length := by
        rw [List.length_zip, List.length_mergeSort]
        exact min_le_left _ _
      have hy : ((yT.mergeSort (· ≤ ·)).zip yV).length ≤ yT.length := by
        rw [List.length_zip, List.length_mergeSort]
        exact min_le_left _ _
      have htot : (0 : ℚ) < ((xT.length + yT.length : ℕ) : ℚ) := by exact_mod_cast h
      constructor
      · positivity
      · rw [div_le_one htot]
        exact_mod_cast Nat.add_le_add hx hy
    · norm_num
  · intro xT yT ocrX ocrY
    simp only [_extract_with_tesseract]
    split_ifs with h
    · have hc := tesseractAxis_counts yT ocrY
        ((tesseractAxis ([], 0, 0) xT ocrX).1, (tesseractAxis ([], 0, 0) xT ocrX).2)
        (by exact tesseractAxis_counts xT ocrX ([], 0, 0) (Nat.le_refl 0))
      have htot : (0 : ℚ) <
          ((tesseractAxis ((tesseractAxis ([], 0, 0) xT ocrX).1,
            (tesseractAxis ([], 0, 0) xT ocrX).2) yT ocrY).2.2 : ℚ) := by
        exact_mod_cast h
      constructor
      · positivity
      · rw [div_le_one htot]
        exact_mod_cast hc
    · norm_num
  · intro parsed raw
    unfold processResponse
    rcases parsed with _ | j
    · norm_num
    · rcases j with _ | b | q | s | xs | fields
      · norm_num
      · norm_num
      · norm_num
      · dsimp only
        split_ifs <;> norm_num
      · dsimp only
        split_ifs <;> norm_num
      · dsimp only
        rcases hd : findField fields "data" with _ | v
        · norm_num
        · rcases v with _ | b | q | s | ys | gs
          · norm_num
          · norm_num
          · norm_num
          · norm_num
          · exact llmConfidence_bounds fields ys
          · norm_num

/-- Angle oracle for the concrete counterexample runs: a segment with equal
rows has `arctan2` angle 0 (classified horizontal) and one with equal
columns (and distinct rows) has angle 90 (classified vertical), exactly as
`np.abs(np.arctan2(...) * 180 / np.pi)` computes on such segments. -/
def exAngle : Seg → ℚ := fun s => if s.y1 = s.y2 then 0 else 90

/-- Axis-box segments of a 400×400 image with lines at rows/columns 100 and
300, as `cv2.HoughLinesP` reports them. -/
def wideMarginSegs : List Seg :=
  [⟨0, 100, 399, 100⟩, ⟨0, 300, 399, 300⟩, ⟨100, 0, 100, 399⟩, ⟨300, 0, 300, 399⟩]

/-- C2 counterexample: on a 400×400 image whose axis lines sit at
rows/columns 100 and 300, calling `detect_plot_area` with margin 150 (the
margin is a caller-chosen argument) returns the degenerate box
(250, 250, 150, 150) with confidence 0.8, violating the CropBox invariant
`x1 < x2`, `y1 < y2`. -/
theorem C2_cropbox_invariant_counterexample :
    detect_plot_area exAngle 400 400 150 (some wideMarginSegs)
      = (⟨250, 250, 150, 150⟩, 4/5) ∧
    ¬ CropBox.valid 400 400 ⟨250, 250, 150, 150⟩ := by
  constructor
  · norm_num [detect_plot_area, wideMarginSegs, exAngle, isHorizontalAngle,
      isVerticalAngle, Seg.hMid, Seg.vMid, Int.fdiv_eq_ediv]
  · decide

lemma foldl_min_ge (l : List ℤ) :
    ∀ a lo : ℤ, lo ≤ a → (∀ x ∈ l, lo ≤ x) → lo ≤ l.foldl min a := by
  induction l with
  | nil => exact fun a lo h _ => h
  | cons x xs ih =>
    intro a lo h hl
    show lo ≤ xs.foldl min (min a x)
    exact ih _ _ (le_min h (hl x (List.mem_cons_self _ _)))
      fun y hy => hl y (List.mem_cons_of_mem _ hy)

lemma foldl_max_le (l : List ℤ) :
    ∀ a hi : ℤ, a ≤ hi → (∀ x ∈ l, x ≤ hi) → l.foldl max a ≤ hi := by
  induction l with
  | nil => exact fun a hi h _ => h
  | cons x xs ih =>
    intro a hi h hl
    show xs.foldl max (max a x) ≤ hi
    exact ih _ _ (max_le h (hl x (List.mem_cons_self _ _)))
      fun y hy => hl y (List.mem_cons_of_mem _ hy)

lemma fallback_crop_valid (w h : ℕ) (hw : 1 ≤ w) (hh : 1 ≤ h) :
    (_fallback_crop w h).valid w h := by
  unfold _fallback_crop CropBox.valid
  dsimp only
  omega

/-- Invariant of the best-rectangle fold: any rectangle it selects comes
from a bounding rect inside the image and is non-degenerate. -/
lemma bestRect_fold_valid (w h : ℕ) (contours : List Contour)
    (hc : ∀ c ∈ contours, 0 ≤ c.x ∧ 0 ≤ c.y ∧ 0 < c.cw ∧ 0 < c.ch ∧
      c.x + c.cw ≤ (w : ℤ) ∧ c.y + c.ch ≤ (h : ℤ)) :
    ∀ acc : Option CropBox × ℤ,
      (∀ b, acc.1 = some b → b.valid w h) →
      ∀ b, (contours.foldl (bestRectStep w h) acc).1 = some b → b.valid w h := by
  induction contours with
  | nil => exact fun acc hacc => hacc
  | cons c cs ih =>
    intro acc hacc
    show ∀ b, (cs.foldl (bestRectStep w h) (bestRectStep w h acc c)).1 = some b → _
    refine ih (fun d hd => hc d (List.mem_cons_of_mem _ hd)) _ ?_
    intro b hb
    unfold bestRectStep at hb
    by_cases h1 : 4 ≤ c.corners
    · rw [if_pos h1] at hb
      dsimp only at hb
      by_cases h2 : c.cw * c.ch > acc.2 ∧ ((c.cw * c.ch : ℤ) : ℚ) > (w : ℚ) * h * (1/5)
      · rw [if_pos h2] at hb
        dsimp only at hb
        injection hb with hb'
        subst hb'
        have hcc := hc c (List.mem_cons_self _ _)
        unfold CropBox.valid
        dsimp only
        omega
      · rw [if_neg h2] at hb
        exact hacc b hb
    · rw [if_neg h1] at hb
      exact hacc b hb

/-- C2 (amended): the CropBox invariant holds for both detectors provided
the margin is nonnegative and small relative to the 30% size gate
(`2·margin < 0.3·w` and `2·margin < 0.3·h`, satisfied by the default
margins on any image at least 34 pixels across), the Hough segments lie
within the image, and the contour bounding rects lie within the image. -/
theorem C2_cropbox_invariant_amended
    (angleOf : Seg → ℚ) (w h : ℕ) (margin : ℤ) (lines : Option (List Seg))
    (contours : List Contour)
    (hw : 1 ≤ w) (hh : 1 ≤ h) (hm : 0 ≤ margin)
    (hmw : 20 * margin < 3 * (w : ℤ)) (hmh : 20 * margin < 3 * (h : ℤ))
    (hseg : ∀ ls, lines = some ls → ∀ s ∈ ls,
      0 ≤ s.x1 ∧ s.x1 < (w : ℤ) ∧ 0 ≤ s.x2 ∧ s.x2 < (w : ℤ) ∧
      0 ≤ s.y1 ∧ s.y1 < (h : ℤ) ∧ 0 ≤ s.y2 ∧ s.y2 < (h : ℤ))
    (hcont : ∀ c ∈ contours, 0 ≤ c.x ∧ 0 ≤ c.y ∧ 0 < c.cw ∧ 0 < c.ch ∧
      c.x + c.cw ≤ (w : ℤ) ∧ c.y + c.ch ≤ (h : ℤ)) :
    (detect_plot_area angleOf w h margin lines).1.valid w h ∧
    (detect_plot_area_contour w h margin contours).1.valid w h := by
  constructor
  · rcases lines with _ | ls
    · exact fallback_crop_valid w h hw hh
    · simp only [detect_plot_area]
      split_ifs with h1
      · exact fallback_crop_valid w h hw hh
      · rcases hH : (ls.filter fun s => isHorizontalAngle (angleOf s)).map Seg.hMid
          with _ | ⟨a, as⟩
        · simp only [hH]
          exact fallback_crop_valid w h hw hh
        · rcases hV : (ls.filter fun s => isVerticalAngle (angleOf s)).map Seg.vMid
            with _ | ⟨b, bs⟩
          · simp only [hH, hV]
            exact fallback_crop_valid w h hw hh
          · simp only [hH, hV]
            have hhb : ∀ x ∈ a :: as, 0 ≤ x ∧ x ≤ (h : ℤ) - 1 := by
              intro x hx
              have hx' : x ∈ (ls.filter fun s => isHorizontalAngle (angleOf s)).map Seg.hMid := by
                rw [hH]; exact hx
              obtain ⟨s, hs, rfl⟩ := List.mem_map.mp hx'
              have hsl := hseg ls rfl s (List.mem_filter.mp hs).1
              unfold Seg.hMid
              rw [Int.fdiv_eq_ediv _ (by norm_num)]
              omega
            have hvb : ∀ x ∈ b :: bs, 0 ≤ x ∧ x ≤ (w : ℤ) - 1 := by
              intro x hx
              have hx' : x ∈ (ls.filter fun s => isVerticalAngle (angleOf s)).map Seg.vMid := by
                rw [hV]; exact hx
              obtain ⟨s, hs, rfl⟩ := List.mem_map.mp hx'
              have hsl := hseg ls rfl s (List.mem_filter.mp hs).1
              unfold Seg.vMid
              rw [Int.fdiv_eq_ediv _ (by norm_num)]
              omega
            have hleft : 0 ≤ bs.foldl min b :=
              foldl_min_ge bs b 0 (hvb b (List.mem_cons_self _ _)).1
                fun y hy => (hvb y (List.mem_cons_of_mem _ hy)).1
            have hright : bs.foldl max b ≤ (w : ℤ) - 1 :=
              foldl_max_le bs b ((w : ℤ) - 1) (hvb b (List.mem_cons_self _ _)).2
                fun y hy => (hvb y (List.mem_cons_of_mem _ hy)).2
            have htop : 0 ≤ as.foldl min a :=
              foldl_min_ge as a 0 (hhb a (List.mem_cons_self _ _)).1
                fun y hy => (hhb y (List.mem_cons_of_mem _ hy)).1
            have hbottom : as.foldl max a ≤ (h : ℤ) - 1 :=
              foldl_max_le as a ((h : ℤ) - 1) (hhb a (List.mem_cons_self _ _)).2
                fun y hy => (hhb y (List.mem_cons_of_mem _ hy)).2
            split_ifs with hsz hconf <;>
              [exact fallback_crop_valid w h hw hh; skip; skip] <;>
              (push_neg at hsz
               have hwid : 3 * (w : ℤ) ≤ 10 * (bs.foldl max b - bs.foldl min b) := by
                 have h10 : (3 : ℚ) * w ≤ 10 * ((bs.foldl max b - bs.foldl min b : ℤ) : ℚ) := by
                   have := hsz.1
                   linarith
                 exact_mod_cast h10
               have hhei : 3 * (h : ℤ) ≤ 10 * (as.foldl max a - as.foldl min a) := by
                 have h10 : (3 : ℚ) * h ≤ 10 * ((as.foldl max a - as.foldl min a : ℤ) : ℚ) := by
                   have := hsz.2
                   linarith
                 exact_mod_cast h10
               unfold CropBox.valid
               dsimp only
               omega)
  · simp only [detect_plot_area_contour]
    split_ifs with h1
    · exact fallback_crop_valid w h hw hh
    · rcases hbest : (contours.foldl (bestRectStep w h) (none, 0)).1 with _ | best
      · simp only [hbest]
        exact fallback_crop_valid w h hw hh
      · simp only [hbest]
        have hbv : best.valid w h :=
          bestRect_fold_valid w h contours hcont (none, 0) (by intro b hb; cases hb)
            best hbest
        split_ifs with h2
        · exact fallback_crop_valid w h hw hh
        · push_neg at h2
          unfold CropBox.valid at hbv ⊢
          dsimp only
          omega

/-- Witness for C2's amended statement on a 100×100 image with no lines and
no contours (both detectors fall back to the fixed 10% crop). -/
theorem C2_cropbox_invariant_amended_witness :
    (detect_plot_area exAngle 100 100 5 none).1.valid 100 100 ∧
    (detect_plot_area_contour 100 100 5 []).1.valid 100 100 :=
  C2_cropbox_invariant_amended exAngle 100 100 5 none [] (by norm_num) (by norm_num)
    (by norm_num) (by norm_num) (by norm_num)
    (fun ls hls => nomatch hls)
    (fun c hc => absurd hc (List.not_mem_nil c))

/-- Segments of a 400×400 image whose detected vertical extent (columns 0
and 100) is under 30% of the width while the horizontal extent is fine. -/
def undersizedSegs : List Seg :=
  [⟨0, 0, 399, 0⟩, ⟨0, 200, 399, 200⟩, ⟨0, 0, 0, 399⟩, ⟨100, 0, 100, 399⟩]

/-- C3 counterexample: on an image whose detected axis region is undersized
(width 100 < 30% of 400), `detect_plot_area` returns the fixed 10% margin
crop directly with confidence 0.4 — there is no intermediate contour
fallback, the confidence is not the claimed 0.3 of the fixed crop and not
the contour detector's 0.7. -/
theorem C3_undersized_contour_chain_counterexample :
    detect_plot_area exAngle 400 400 5 (some undersizedSegs)
      = (_fallback_crop 400 400, 2/5) ∧
    _fallback_crop 400 400 = ⟨40, 40, 360, 360⟩ ∧
    (2/5 : ℚ) ≠ 3/10 ∧ (2/5 : ℚ) ≠ 7/10 := by
  refine ⟨?_, ?_, by norm_num, by norm_num⟩
  · norm_num [detect_plot_area, undersizedSegs, exAngle, isHorizontalAngle,
      isVerticalAngle, Seg.hMid, Seg.vMid, Int.fdiv_eq_ediv]
  · norm_num [_fallback_crop]

/-- C3 (amended): when no Hough lines (or fewer than two) are found,
`detect_plot_area` returns the fixed 10% margin crop `(0.1W, 0.1H, 0.9W,
0.9H)` with confidence 0.3; in every other non-main-branch case — missing
orientation or undersized region — it returns the same fixed crop directly
with confidence 0.4, never consulting any contour: its confidences are
exactly {0.3, 0.4, 0.8, 0.9} and every 0.3/0.4 outcome carries the fixed
crop.  The contour detection lives in the separate function
`detect_plot_area_contour`, which returns confidence 0.7 on success and the
fixed crop with 0.3 otherwise. -/
theorem C3_fallback_behaviour_amended :
    (∀ (angleOf : Seg → ℚ) (w h : ℕ) (margin : ℤ),
      detect_plot_area angleOf w h margin none = (_fallback_crop w h, 3/10)) ∧
    (∀ (angleOf : Seg → ℚ) (w h : ℕ) (margin : ℤ) (ls : List Seg),
      ls.length < 2 →
      detect_plot_area angleOf w h margin (some ls) = (_fallback_crop w h, 3/10)) ∧
    (∀ (angleOf : Seg → ℚ) (w h : ℕ) (margin : ℤ) (lines : Option (List Seg)),
      ((detect_plot_area angleOf w h margin lines).2 = 3/10 ∨
        (detect_plot_area angleOf w h margin lines).2 = 2/5) →
      (detect_plot_area angleOf w h margin lines).1 = _fallback_crop w h) ∧
    (∀ (angleOf : Seg → ℚ) (w h : ℕ) (margin : ℤ) (lines : Option (List Seg)),
      (detect_plot_area angleOf w h margin lines).2 = 3/10 ∨
      (detect_plot_area angleOf w h margin lines).2 = 2/5 ∨
      (detect_plot_area angleOf w h margin lines).2 = 4/5 ∨
      (detect_plot_area angleOf w h margin lines).2 = 9/10) ∧
    (∀ (w h : ℕ) (margin : ℤ) (contours : List Contour),
      (detect_plot_area_contour w h margin contours).2 = 7/10 ∨
      detect_plot_area_contour w h margin contours = (_fallback_crop w h, 3/10)) ∧
    (∀ (angleOf : Seg → ℚ) (margin : ℤ),
      detect_plot_area angleOf 1000 500 margin none = (⟨100, 50, 900, 450⟩, 3/10)) := by
  refine ⟨?_, ?_, ?_, ?_, ?_, ?_⟩
  · intro angleOf w h margin
    rfl
  · intro angleOf w h margin ls hls
    simp only [detect_plot_area]
    rw [if_pos hls]
  · intro angleOf w h margin lines
    rcases lines with _ | ls
    · intro _
      rfl
    · simp only [detect_plot_area]
      split_ifs with h1
      · intro _
        rfl
      · rcases hH : (ls.filter fun s => isHorizontalAngle (angleOf s)).map Seg.hMid
          with _ | ⟨a, as⟩ <;>
          rcases hV : (ls.filter fun s => isVerticalAngle (angleOf s)).map Seg.vMid
            with _ | ⟨b, bs⟩ <;>
          simp only [hH, hV] <;>
          first
            | (intro _; rfl)
            | (intro _; trivial)
            | (split_ifs <;> intro hc <;>
                first
                  | rfl
                  | trivial
                  | (rcases hc with hc | hc <;> norm_num at hc))
  · intro angleOf w h margin lines
    rcases lines with _ | ls
    · norm_num [detect_plot_area]
    · simp only [detect_plot_area]
      split_ifs with h1
      · norm_num
      · rcases hH : (ls.filter fun s => isHorizontalAngle (angleOf s)).map Seg.hMid
          with _ | ⟨a, as⟩ <;>
          rcases hV : (ls.filter fun s => isVerticalAngle (angleOf s)).map Seg.vMid
            with _ | ⟨b, bs⟩ <;>
          simp only [hH, hV] <;>
          first
            | (split_ifs <;> norm_num)
            | norm_num
  · intro w h margin contours
    simp only [detect_plot_area_contour]
    split_ifs with h1
    · exact Or.inr rfl
    · rcases hbest : (contours.foldl (bestRectStep w h) (none, 0)).1 with _ | best <;>
        simp only [hbest]
      · first
          | exact Or.inr rfl
          | exact Or.inr trivial
      · split_ifs with h2
        · first
            | exact Or.inr rfl
            | exact Or.inr trivial
        · first
            | exact Or.inl rfl
            | exact Or.inl trivial
  · intro angleOf margin
    norm_num [detect_plot_area, _fallback_crop]

/-- Witness for C3's amended statement on a one-segment line list. -/
theorem C3_fallback_behaviour_amended_witness :
    detect_plot_area exAngle 200 200 5 (some [⟨0, 0, 150, 0⟩]) =
      (_fallback_crop 200 200, 3/10) :=
  C3_fallback_behaviour_amended.2.1 exAngle 200 200 5 [⟨0, 0, 150, 0⟩] (by norm_num)

end Chart2CSV
